import Mathlib

/-!
# Verification of the DeckLink capture-control unit

Shallow embedding of `src/QCTools/Source/Core/BlackmagicDeckLink.cpp`
(`CaptureHelper` and its helpers).  The hardware (DeckLink card, input
stream, deck-control session) is abstracted: every hardware call whose
result the code inspects is an explicit oracle parameter, and every
externally visible effect (frame delivery to the sink, transport
commands, session close calls) is recorded as an `Action` in a trace.

Machine integers: `BMDTimecodeBCD` is a `uint32_t`; the configuration
fields `TC_in`, `TC_out`, `TC_current`, `FrameCount` are C `int`s using
`-1` as the "unset/unknown" sentinel, modelled as `Int`.  Where the C++
code compares a `uint32_t` against an `int` the `int` is converted to
unsigned, modelled by `toU32` (reduction mod 2^32).
-/

namespace BMDL

/-- `BlackmagicDeckLink_Glue::status` values (idle / capturing /
aborting / finished). -/
inductive CaptureStatus where
  | idle
  | capturing
  | aborting
  | finished
deriving DecidableEq, Repr

/-- `BMDDeckControlError` values, as enumerated by
`BMDDeckControlError2String` in the source. -/
inductive DeckControlError where
  | noError
  | modeError
  | missedInPointError
  | deckTimeoutError
  | commandFailedError
  | deviceAlreadyOpenedError
  | failedToOpenDeviceError
  | inLocalModeError
  | endOfTapeError
  | userAbortError
  | noTapeInDeckError
  | noVideoFromCardError
  | noCommunicationError
  | unknownError
deriving DecidableEq, Repr

/-- `BMDDeckControlEvent` values; `reserved n` stands for any event code
outside the enumerated ones (the `default` branch of the source's
switch). -/
inductive DeckControlEvent where
  | abortedEvent
  | prepareForExportEvent
  | prepareForCaptureEvent
  | exportCompleteEvent
  | captureCompleteEvent
  | reserved (code : Nat)
deriving DecidableEq, Repr

/-- Externally visible effects of the state machine: calls into the
FrameSink (`OutputFrame`, `CloseOutput` on the glue), transport commands
issued to the deck (`Abort`, `Stop`, `Play`, `StartCapture`,
`GetTimecode`), the `TimeCodeIsAvailable` callback, and the teardown
calls closing each session. -/
inductive Action where
  | outputFrame (channel : Nat) (size : Nat) (pos : Nat)
  | closeOutput
  | abortCmd
  | stopCmd
  | playCmd
  | startCaptureCmd
  | queryTimecode
  | timeCodeAvailableCb
  | closeDeck
  | closeInput
  | releaseCard
deriving DecidableEq, Repr

/-- The caller-supplied configuration `BlackmagicDeckLink_Glue::config_in`
fields used by the capture-control logic.  `-1` is the "unset" sentinel
for `TC_in`, `TC_out` and `FrameCount`. -/
structure ConfigIn where
  TC_in : Int
  TC_out : Int
  FrameCount : Int
  dropFrame : Bool
  hasTimeCodeCallback : Bool
deriving DecidableEq, Repr

/-- The mutable state of `CaptureHelper` together with the `config_out`
fields it writes: `status` and `tcCurrent` live in `Config_Out`
(`Status`, `TC_current`); `framePos` is `m_FramePos`; `wantTimeCode` is
`WantTimeCode`; `cardAcquired`, `inputOpen`, `controlOpen` model the
nullness of `m_card`, `m_input`, `m_control`; `glue` models
`Glue && *Glue` (a FrameSink is attached). -/
structure CaptureState where
  status : CaptureStatus
  tcCurrent : Int
  framePos : Nat
  wantTimeCode : Bool
  cardAcquired : Bool
  inputOpen : Bool
  controlOpen : Bool
  glue : Bool
deriving DecidableEq, Repr

/-- An incoming `IDeckLinkVideoInputFrame`: its serial timecode (if
`GetTimecode` yields one) as a BCD value, and the quantities
`GetRowBytes`/`GetHeight` used to compute the forwarded byte length. -/
structure VideoFrame where
  timecode : Option Nat
  rowBytes : Nat
  height : Nat
deriving DecidableEq, Repr

/-- An incoming `IDeckLinkAudioInputPacket` (`GetSampleFrameCount`). -/
structure AudioPacket where
  sampleFrameCount : Nat
deriving DecidableEq, Repr

/-- C++ conversion of a signed `int` to `uint32_t` (reduction mod 2^32),
applied implicitly when the source compares a `BMDTimecodeBCD` with a
configuration `int`. -/
def toU32 (x : Int) : Nat := (x % 4294967296).toNat

/-- SDK flag bit `bmdDeckControlStatusDeckConnected` (1 << 0). -/
def deckConnectedBit : Nat := 1

/-- `CaptureHelper::finishCapture`: no-op returning `false` when status
is already `finished`; otherwise calls `CloseOutput` on the attached
glue, sets status to `finished` and returns `true`. -/
def finishCapture (s : CaptureState) : CaptureState × List Action × Bool :=
  if s.status = CaptureStatus.finished then
    (s, [], false)
  else
    ({ s with status := CaptureStatus.finished },
     (if s.glue then [Action.closeOutput] else []), true)

/-- `CaptureHelper::stop`: with a timecode-in bound configured it issues
`Abort` and sets status to `aborting`; otherwise it issues `Stop` and
runs `finishCapture` synchronously.  (The results of the `Abort`/`Stop`
commands themselves are only logged by the source.) -/
def stop (cfg : ConfigIn) (s : CaptureState) : CaptureState × List Action :=
  if cfg.TC_in ≠ -1 then
    ({ s with status := CaptureStatus.aborting }, [Action.abortCmd])
  else
    let r := finishCapture s
    (r.1, Action.stopCmd :: r.2.1)

/-- The gating decision of `CaptureHelper::VideoInputFrameArrived`
(the `ShouldDecode` local): start from `true`; reaching the frame-count
limit clears it; with a timecode present, a configured in-bound clears
it for a duplicate of `TC_current`, a timecode below `TC_in`, or at or
above `TC_out`; with no timecode, a configured in-bound clears it. -/
def shouldDecode (cfg : ConfigIn) (s : CaptureState) (tc : Option Nat) : Bool :=
  let sd := true
  let sd := if cfg.FrameCount ≠ -1 ∧ (s.framePos : Int) ≥ cfg.FrameCount then false else sd
  match tc with
  | some tcBCD =>
      if cfg.TC_in ≠ -1 ∧
          ((s.tcCurrent ≠ -1 ∧ tcBCD = toU32 s.tcCurrent)
            ∨ tcBCD < toU32 cfg.TC_in
            ∨ tcBCD ≥ toU32 cfg.TC_out) then false else sd
  | none => if cfg.TC_in ≠ -1 then false else sd

/-- The decode-and-forward tail of `VideoInputFrameArrived`.  When the
frame is accepted the source calls `arrivedAudioFrame->GetBytes`
unconditionally; with no audio packet that dereferences a null pointer,
modelled as `.error ()`.  Otherwise it forwards video (channel 0, size
`GetRowBytes*GetHeight`) and audio (channel 1, size
`GetSampleFrameCount()*2*16/8`) at the current `m_FramePos` when a glue
is attached, increments `m_FramePos`, and calls `stop` if the
frame-count limit is now reached. -/
def decodeFrame (cfg : ConfigIn) (s : CaptureState) (sd : Bool)
    (vf : VideoFrame) (af : Option AudioPacket) :
    Except Unit (CaptureState × List Action) :=
  if sd then
    match af with
    | none => Except.error ()
    | some ap =>
        let calls : List Action :=
          if s.glue then
            [Action.outputFrame 0 (vf.rowBytes * vf.height) s.framePos,
             Action.outputFrame 1 (ap.sampleFrameCount * 2 * 16 / 8) s.framePos]
          else []
        let s1 := { s with framePos := s.framePos + 1 }
        if cfg.FrameCount ≠ -1 ∧ (s1.framePos : Int) ≥ cfg.FrameCount then
          let r := stop cfg s1
          Except.ok (r.1, calls ++ r.2)
        else
          Except.ok (s1, calls)
  else
    Except.ok (s, [])

/-- `CaptureHelper::VideoInputFrameArrived`: discard immediately unless
status is `capturing`; compute the gating decision; when the frame has a
timecode, update `TC_current` from it regardless of the decision; then
run the decode-and-forward tail. -/
def VideoInputFrameArrived (cfg : ConfigIn) (s : CaptureState)
    (vf : VideoFrame) (af : Option AudioPacket) :
    Except Unit (CaptureState × List Action) :=
  if s.status ≠ CaptureStatus.capturing then
    Except.ok (s, [])
  else
    let sd := shouldDecode cfg s vf.timecode
    match vf.timecode with
    | some tcBCD => decodeFrame cfg { s with tcCurrent := (tcBCD : Int) } sd vf af
    | none => decodeFrame cfg s sd vf af

/-- `CaptureHelper::DeckControlEventReceived`: `prepareForCapture` only
logs; `captureComplete` and `aborted` call `finishCapture`; every other
event code falls into the `default:` branch, which also calls
`finishCapture`.  The error argument is only logged. -/
def DeckControlEventReceived (s : CaptureState) (ev : DeckControlEvent)
    (err : DeckControlError) : CaptureState × List Action :=
  let _ := err
  match ev with
  | DeckControlEvent.prepareForCaptureEvent => (s, [])
  | DeckControlEvent.captureCompleteEvent =>
      let r := finishCapture s
      (r.1, r.2.1)
  | DeckControlEvent.abortedEvent =>
      let r := finishCapture s
      (r.1, r.2.1)
  | DeckControlEvent.prepareForExportEvent =>
      let r := finishCapture s
      (r.1, r.2.1)
  | DeckControlEvent.exportCompleteEvent =>
      let r := finishCapture s
      (r.1, r.2.1)
  | DeckControlEvent.reserved _ =>
      let r := finishCapture s
      (r.1, r.2.1)

/-- Result of the hardware `IDeckLinkDeckControl::GetTimecode` call:
either a BCD timecode or a deck-control error. -/
inductive TimecodeQueryResult where
  | ok (bcd : Nat)
  | err (e : DeckControlError)
deriving DecidableEq, Repr

/-- `CaptureHelper::readTimeCode`: issues `GetTimecode`; on failure with
`bmdDeckControlNoCommunicationError` it sets `WantTimeCode` (the pending
retry flag) — any other error is only logged — and sets `TC_current` to
`-1`; on success it stores the BCD in `TC_current` and invokes the
`TimeCodeIsAvailable` callback when one is configured. -/
def readTimeCode (cfg : ConfigIn) (s : CaptureState)
    (r : TimecodeQueryResult) : CaptureState × List Action :=
  match r with
  | TimecodeQueryResult.err e =>
      let s1 := if e = DeckControlError.noCommunicationError then
          { s with wantTimeCode := true } else s
      ({ s1 with tcCurrent := -1 }, [Action.queryTimecode])
  | TimecodeQueryResult.ok bcd =>
      ({ s with tcCurrent := (bcd : Int) },
       Action.queryTimecode ::
         (if cfg.hasTimeCodeCallback then [Action.timeCodeAvailableCb] else []))

/-- `CaptureHelper::DeckControlStatusChanged`: when the deck-connected
bit is both in the change mask and set in the flags, and a timecode
query is pending (`WantTimeCode`), re-run `readTimeCode` and then clear
the pending flag; in every other case the state is untouched.  `r` is
the hardware reply to the retried `GetTimecode`. -/
def DeckControlStatusChanged (cfg : ConfigIn) (s : CaptureState)
    (flags mask : Nat) (r : TimecodeQueryResult) : CaptureState × List Action :=
  if mask &&& deckConnectedBit ≠ 0 ∧ flags &&& deckConnectedBit ≠ 0 then
    if s.wantTimeCode then
      let q := readTimeCode cfg s r
      ({ q.1 with wantTimeCode := false }, q.2)
    else (s, [])
  else (s, [])

/-- Outcome of one attempt of `CaptureHelper::setupInput`.  Only
`queryFailed` leaves `m_input` null; after `QueryInterface` succeeds the
pointer stays set even when a later step fails and `false` is
returned. -/
inductive InputSetupOutcome where
  | queryFailed
  | iteratorFailed
  | modeNotFound
  | enableVideoFailed
  | enableAudioFailed
  | startStreamsFailed
  | success
deriving DecidableEq, Repr

/-- `CaptureHelper::setupInput`: returns `true` at once when `m_input`
is already set; otherwise runs the interface query, display-mode
lookup, video/audio enabling and stream start, returning `false` on the
first failing step. -/
def setupInput (s : CaptureState) (r : InputSetupOutcome) : CaptureState × Bool :=
  if s.inputOpen then (s, true)
  else
    match r with
    | InputSetupOutcome.queryFailed => (s, false)
    | InputSetupOutcome.iteratorFailed => ({ s with inputOpen := true }, false)
    | InputSetupOutcome.modeNotFound => ({ s with inputOpen := true }, false)
    | InputSetupOutcome.enableVideoFailed => ({ s with inputOpen := true }, false)
    | InputSetupOutcome.enableAudioFailed => ({ s with inputOpen := true }, false)
    | InputSetupOutcome.startStreamsFailed => ({ s with inputOpen := true }, false)
    | InputSetupOutcome.success => ({ s with inputOpen := true }, true)

/-- Outcome of the control-specific part of `CaptureHelper::setupControl`:
`queryFailed` leaves `m_control` null; `openFailed` has the pointer set
but `Open` rejected; `success` opens the deck session. -/
inductive ControlSetupOutcome where
  | queryFailed
  | openFailed
  | success
deriving DecidableEq, Repr

/-- `CaptureHelper::setupControl`: first ensures the input session (for
the time base), then returns `true` at once when `m_control` is already
set, otherwise queries the control interface and opens the deck
session, returning `false` on a failing step. -/
def setupControl (s : CaptureState) (ri : InputSetupOutcome)
    (rc : ControlSetupOutcome) : CaptureState × Bool :=
  let q := setupInput s ri
  if !q.2 then (q.1, false)
  else if q.1.controlOpen then (q.1, true)
  else
    match rc with
    | ControlSetupOutcome.queryFailed => (q.1, false)
    | ControlSetupOutcome.openFailed => ({ q.1 with controlOpen := true }, false)
    | ControlSetupOutcome.success => ({ q.1 with controlOpen := true }, true)

/-- `CaptureHelper::setupCard`: `true` at once when `m_card` is already
acquired; otherwise acquires the card (oracle `ok`), returning `false`
when the card cannot be obtained.  The attribute and configuration
queries that follow are best-effort logging. -/
def setupCard (s : CaptureState) (ok : Bool) : CaptureState × Bool :=
  if s.cardAcquired then (s, true)
  else if ok then ({ s with cardAcquired := true }, true)
  else (s, false)

/-- `CaptureHelper::cleanupInput`: no-op returning `true` when `m_input`
is null; otherwise stops the streams, disables input, detaches the
callback and releases the interface. -/
def cleanupInput (s : CaptureState) : CaptureState × List Action × Bool :=
  if !s.inputOpen then (s, [], true)
  else ({ s with inputOpen := false }, [Action.closeInput], true)

/-- `CaptureHelper::cleanupControl`: no-op returning `true` when
`m_control` is null; when status is `capturing` with a timecode-in bound
it issues `Abort`, moves to `aborting` and returns `false` without
closing; otherwise it closes, detaches and releases the control
session. -/
def cleanupControl (cfg : ConfigIn) (s : CaptureState) :
    CaptureState × List Action × Bool :=
  if !s.controlOpen then (s, [], true)
  else if s.status = CaptureStatus.capturing ∧ cfg.TC_in ≠ -1 then
    ({ s with status := CaptureStatus.aborting }, [Action.abortCmd], false)
  else ({ s with controlOpen := false }, [Action.closeDeck], true)

/-- `CaptureHelper::cleanupCard`: no-op returning `true` when `m_card`
is null; otherwise releases the card handle. -/
def cleanupCard (s : CaptureState) : CaptureState × List Action × Bool :=
  if !s.cardAcquired then (s, [], true)
  else ({ s with cardAcquired := false }, [Action.releaseCard], true)

/-- `CaptureHelper::~CaptureHelper`: finish the capture, then close the
deck-control session, then the input session, then release the card
handle, in that order. -/
def destructCaptureHelper (cfg : ConfigIn) (s : CaptureState) :
    CaptureState × List Action :=
  let r1 := finishCapture s
  let r2 := cleanupControl cfg r1.1
  let r3 := cleanupInput r2.1
  let r4 := cleanupCard r3.1
  (r4.1, r1.2.1 ++ r2.2.1 ++ r3.2.1 ++ r4.2.1)

/-- Oracle inputs for one `CaptureHelper::startCapture` call: outcomes
of its two direct `setupInput` calls, of the `setupInput` nested inside
`setupControl`, of the control setup, and of the `Play` and
`StartCapture` transport commands. -/
structure StartOracle where
  input1 : InputSetupOutcome
  input2 : InputSetupOutcome
  ctrlInput : InputSetupOutcome
  ctrl : ControlSetupOutcome
  playOk : Bool
  startCaptureOk : Bool
deriving DecidableEq, Repr

/-- `CaptureHelper::startCapture`: resets the input session
(`cleanupInput(); setupInput();`), then returns early when a second
`setupInput` fails.  With no timecode-in bound it issues `Play` (its
failure is only logged) and sets status to `capturing`.  With a bound it
ensures the deck session, issues `StartCapture`, sets status to
`finished` when the command is rejected and to `capturing` when it is
accepted. -/
def startCapture (cfg : ConfigIn) (s : CaptureState) (o : StartOracle) :
    CaptureState × List Action :=
  let c := cleanupInput s
  let q1 := setupInput c.1 o.input1
  let q2 := setupInput q1.1 o.input2
  if !q2.2 then (q2.1, c.2.1)
  else if cfg.TC_in = -1 then
    ({ q2.1 with status := CaptureStatus.capturing }, c.2.1 ++ [Action.playCmd])
  else
    let q3 := setupControl q2.1 o.ctrlInput o.ctrl
    if !q3.2 then (q3.1, c.2.1)
    else if !o.startCaptureOk then
      ({ q3.1 with status := CaptureStatus.finished },
       c.2.1 ++ [Action.startCaptureCmd])
    else
      ({ q3.1 with status := CaptureStatus.capturing },
       c.2.1 ++ [Action.startCaptureCmd])

/-- `CaptureHelper::getTimeCode`: ensure the deck session, then read the
timecode; returns without querying when the setup fails. -/
def getTimeCode (cfg : ConfigIn) (s : CaptureState) (ri : InputSetupOutcome)
    (rc : ControlSetupOutcome) (r : TimecodeQueryResult) :
    CaptureState × List Action :=
  let q := setupControl s ri rc
  if !q.2 then (q.1, [])
  else readTimeCode cfg q.1 r

/-- One asynchronous or caller-driven stimulus to the state machine,
carrying the hardware oracle inputs its handler consumes. -/
inductive Event where
  | frameArrival (vf : VideoFrame) (af : Option AudioPacket)
  | deckEvent (ev : DeckControlEvent) (err : DeckControlError)
  | statusChange (flags mask : Nat) (r : TimecodeQueryResult)
  | stopRequest
  | startRequest (o : StartOracle)
  | timeCodeRequest (ri : InputSetupOutcome) (rc : ControlSetupOutcome)
      (r : TimecodeQueryResult)
  | finishRequest
deriving DecidableEq, Repr

/-- Dispatch one event to the corresponding `CaptureHelper` handler. -/
def step (cfg : ConfigIn) (s : CaptureState) (e : Event) :
    Except Unit (CaptureState × List Action) :=
  match e with
  | Event.frameArrival vf af => VideoInputFrameArrived cfg s vf af
  | Event.deckEvent ev err => Except.ok (DeckControlEventReceived s ev err)
  | Event.statusChange flags mask r =>
      Except.ok (DeckControlStatusChanged cfg s flags mask r)
  | Event.stopRequest => Except.ok (stop cfg s)
  | Event.startRequest o => Except.ok (startCapture cfg s o)
  | Event.timeCodeRequest ri rc r => Except.ok (getTimeCode cfg s ri rc r)
  | Event.finishRequest =>
      let r := finishCapture s
      Except.ok (r.1, r.2.1)

/-- Run a sequence of events, concatenating the action traces; stops at
the first undefined access. -/
def run (cfg : ConfigIn) (s : CaptureState) : List Event →
    Except Unit (CaptureState × List Action)
  | [] => Except.ok (s, [])
  | e :: es =>
      match step cfg s e with
      | Except.error u => Except.error u
      | Except.ok (s1, a1) =>
          match run cfg s1 es with
          | Except.error u => Except.error u
          | Except.ok (s2, a2) => Except.ok (s2, a1 ++ a2)

/-- The frame positions of the video-channel deliveries in a trace. -/
def videoPositions (acts : List Action) : List Nat :=
  acts.filterMap fun a =>
    match a with
    | Action.outputFrame 0 _ p => some p
    | _ => none

/-- Whether a trace contains a video-channel delivery (the frame was
forwarded to the FrameSink). -/
def forwardsFrame (acts : List Action) : Bool :=
  acts.any fun a =>
    match a with
    | Action.outputFrame 0 _ _ => true
    | _ => false

/-- Unbounded configuration used for the frame-count and audio-safety
scenarios: no timecode bounds, frame-count limit 2 (scenario C3). -/
def cfgLimit2 : ConfigIn :=
  { TC_in := -1, TC_out := -1, FrameCount := 2, dropFrame := false,
    hasTimeCodeCallback := false }

/-- Unbounded configuration with no frame-count limit. -/
def cfgUnbounded : ConfigIn :=
  { TC_in := -1, TC_out := -1, FrameCount := -1, dropFrame := false,
    hasTimeCodeCallback := false }

/-- A fully set-up capturing state with a sink attached and no frames
forwarded yet. -/
def sCapturing : CaptureState :=
  { status := CaptureStatus.capturing, tcCurrent := -1, framePos := 0,
    wantTimeCode := false, cardAcquired := true, inputOpen := true,
    controlOpen := true, glue := true }

/-- An NTSC-sized frame without an embedded timecode. -/
def vfPlain : VideoFrame := { timecode := none, rowBytes := 1440, height := 486 }

/-- A typical NTSC audio packet. -/
def apPlain : AudioPacket := { sampleFrameCount := 1602 }

/-- A frame-arrival event carrying `vfPlain` with audio. -/
def fePlain : Event := Event.frameArrival vfPlain (some apPlain)

/-- The state after the first two frames of the C3 scenario: two frames
forwarded and the stop already executed. -/
def sAfterTwo : CaptureState :=
  { sCapturing with status := CaptureStatus.finished, framePos := 2 }

/-- A bounded-capture configuration (in-point 01:00:00:00, out-point
01:00:10:00 in BCD). -/
def cfgBounded : ConfigIn :=
  { TC_in := 16777216, TC_out := 16781312, FrameCount := -1,
    dropFrame := false, hasTimeCodeCallback := false }

/-- An idle state with the card acquired but no sessions open. -/
def sIdle : CaptureState :=
  { status := CaptureStatus.idle, tcCurrent := -1, framePos := 0,
    wantTimeCode := false, cardAcquired := true, inputOpen := false,
    controlOpen := false, glue := true }

/-- A start-oracle in which every setup step succeeds but the deck
rejects the `StartCapture` command. -/
def oracleStartRejected : StartOracle :=
  { input1 := InputSetupOutcome.success, input2 := InputSetupOutcome.success,
    ctrlInput := InputSetupOutcome.success, ctrl := ControlSetupOutcome.success,
    playOk := true, startCaptureOk := false }

/-! ## Theorems -/

/-- C2: For every frame-arrival notification that occurs while the
capture status is not `capturing`, no frame is forwarded to the
FrameSink and the frame-position counter is not incremented: the handler
returns the state unchanged with an empty action trace. -/
theorem frameArrival_not_capturing_discards (cfg : ConfigIn) (s : CaptureState)
    (vf : VideoFrame) (af : Option AudioPacket)
    (h : s.status ≠ CaptureStatus.capturing) :
    VideoInputFrameArrived cfg s vf af = Except.ok (s, []) := by
  unfold VideoInputFrameArrived
  simp [h]

/-- Witness for C2 at a concrete idle-state frame arrival. -/
theorem frameArrival_not_capturing_discards_witness :
    VideoInputFrameArrived
      { TC_in := -1, TC_out := -1, FrameCount := -1, dropFrame := false,
        hasTimeCodeCallback := false }
      { status := CaptureStatus.idle, tcCurrent := -1, framePos := 0,
        wantTimeCode := false, cardAcquired := true, inputOpen := true,
        controlOpen := true, glue := true }
      { timecode := some 16777216, rowBytes := 1440, height := 486 }
      (some { sampleFrameCount := 1602 }) =
      Except.ok
        ({ status := CaptureStatus.idle, tcCurrent := -1, framePos := 0,
           wantTimeCode := false, cardAcquired := true, inputOpen := true,
           controlOpen := true, glue := true }, []) :=
  frameArrival_not_capturing_discards _ _ _ _ (by decide)

/-- C6: `finishCapture` is idempotent: when status is already `finished`
it changes nothing and returns `false` ("no state change"); otherwise it
emits exactly one `CloseOutput` notification to the attached sink, sets
status to `finished` and returns `true`.  A second call in succession is
a no-op, so two successive calls produce exactly one notification and
leave status `finished` both times. -/
theorem finishCapture_idempotent (s : CaptureState) (hg : s.glue = true) :
    (s.status = CaptureStatus.finished → finishCapture s = (s, [], false)) ∧
    (s.status ≠ CaptureStatus.finished →
      finishCapture s =
        ({ s with status := CaptureStatus.finished }, [Action.closeOutput], true)) ∧
    finishCapture (finishCapture s).1 = ((finishCapture s).1, [], false) ∧
    (finishCapture s).1.status = CaptureStatus.finished ∧
    ((finishCapture s).2.1 ++ (finishCapture (finishCapture s).1).2.1).countP
        (fun a => decide (a = Action.closeOutput)) =
      (if s.status = CaptureStatus.finished then 0 else 1) := by
  by_cases hs : s.status = CaptureStatus.finished <;>
    simp [finishCapture, hs, hg, List.countP_cons]

/-- Witness for C6 at a concrete capturing state. -/
theorem finishCapture_idempotent_witness :
    (let s : CaptureState :=
      { status := CaptureStatus.capturing, tcCurrent := -1, framePos := 3,
        wantTimeCode := false, cardAcquired := true, inputOpen := true,
        controlOpen := true, glue := true }
     (s.status = CaptureStatus.finished → finishCapture s = (s, [], false)) ∧
     (s.status ≠ CaptureStatus.finished →
       finishCapture s =
         ({ s with status := CaptureStatus.finished }, [Action.closeOutput], true)) ∧
     finishCapture (finishCapture s).1 = ((finishCapture s).1, [], false) ∧
     (finishCapture s).1.status = CaptureStatus.finished ∧
     ((finishCapture s).2.1 ++ (finishCapture (finishCapture s).1).2.1).countP
         (fun a => decide (a = Action.closeOutput)) =
       (if s.status = CaptureStatus.finished then 0 else 1)) :=
  finishCapture_idempotent _ (by decide)

/-- C10: every deck-control event other than prepare-for-capture —
capture-complete, aborted, prepare-for-export, export-complete, and any
unrecognized code — runs `finishCapture`, so from a not-yet-finished
state it moves status to `finished` and (with a sink attached) emits the
capture-ended notification; prepare-for-capture leaves the state
untouched. -/
theorem deckEvent_finishes_capture (s : CaptureState) (err : DeckControlError)
    (n : Nat) :
    DeckControlEventReceived s DeckControlEvent.prepareForCaptureEvent err = (s, []) ∧
    DeckControlEventReceived s DeckControlEvent.captureCompleteEvent err =
      ((finishCapture s).1, (finishCapture s).2.1) ∧
    DeckControlEventReceived s DeckControlEvent.abortedEvent err =
      ((finishCapture s).1, (finishCapture s).2.1) ∧
    DeckControlEventReceived s DeckControlEvent.prepareForExportEvent err =
      ((finishCapture s).1, (finishCapture s).2.1) ∧
    DeckControlEventReceived s DeckControlEvent.exportCompleteEvent err =
      ((finishCapture s).1, (finishCapture s).2.1) ∧
    DeckControlEventReceived s (DeckControlEvent.reserved n) err =
      ((finishCapture s).1, (finishCapture s).2.1) ∧
    (s.status ≠ CaptureStatus.finished →
      (finishCapture s).1.status = CaptureStatus.finished ∧
      (s.glue = true → (finishCapture s).2.1 = [Action.closeOutput])) := by
  refine ⟨rfl, rfl, rfl, rfl, rfl, rfl, fun hs => ?_⟩
  constructor
  · simp [finishCapture, hs]
  · intro hg
    simp [finishCapture, hs, hg]

/-- Witness for C10 at a concrete capturing state and an unrecognized
event code. -/
theorem deckEvent_finishes_capture_witness :
    (let s : CaptureState :=
      { status := CaptureStatus.capturing, tcCurrent := -1, framePos := 0,
        wantTimeCode := false, cardAcquired := true, inputOpen := true,
        controlOpen := true, glue := true }
     DeckControlEventReceived s (DeckControlEvent.reserved 99)
         DeckControlError.noError =
       ((finishCapture s).1, (finishCapture s).2.1) ∧
     (finishCapture s).1.status = CaptureStatus.finished) :=
  ⟨(deckEvent_finishes_capture _ DeckControlError.noError 99).2.2.2.2.2.1,
   ((deckEvent_finishes_capture _ DeckControlError.noError 99).2.2.2.2.2.2
      (by decide)).1⟩

/-- C9 (code bug): an accepted frame that arrives without an audio
packet hits `arrivedAudioFrame->GetBytes(&audioBuffer)` on a null
pointer: the forwarding step is undefined, contradicting the claim that
it is well-defined with no accompanying audio.  With an audio packet
present, the same frame is forwarded correctly: video and audio tagged
with the current frame position. -/
theorem acceptedFrame_without_audio_undefined :
    VideoInputFrameArrived cfgUnbounded sCapturing vfPlain none =
      Except.error () ∧
    VideoInputFrameArrived cfgUnbounded sCapturing vfPlain (some apPlain) =
      Except.ok ({ sCapturing with framePos := 1 },
        [Action.outputFrame 0 (1440 * 486) 0,
         Action.outputFrame 1 (1602 * 2 * 16 / 8) 0]) := by
  constructor <;> rfl

/-- C3 counterexample: in the maxFrameCount=2 scenario it is the
*second* frame, not the third, whose processing issues the stop request:
after two frames the status is already `finished` and the trace already
holds `stopCmd`; processing the third frame changes nothing and issues
no stop. -/
theorem thirdFrame_triggers_no_stop :
    run cfgLimit2 sCapturing [fePlain, fePlain] =
      Except.ok (sAfterTwo,
        [Action.outputFrame 0 (1440 * 486) 0,
         Action.outputFrame 1 (1602 * 2 * 16 / 8) 0,
         Action.outputFrame 0 (1440 * 486) 1,
         Action.outputFrame 1 (1602 * 2 * 16 / 8) 1,
         Action.stopCmd, Action.closeOutput]) ∧
    sAfterTwo.status = CaptureStatus.finished ∧
    step cfgLimit2 sAfterTwo fePlain = Except.ok (sAfterTwo, []) := by
  refine ⟨?_, rfl, rfl⟩
  rfl

/-- C3 as amended: with maxFrameCount=2 and no timecode bound, three
frames arriving produce exactly two forwarded frames (positions 0 and
1); the *second* frame's forwarding reaches the limit and synchronously
issues the stop request, which moves status to `finished`; the third
frame is then discarded by the not-`capturing` check without forwarding
and without issuing any stop. -/
theorem maxFrameCount_two_scenario :
    step cfgLimit2 sCapturing fePlain =
      Except.ok ({ sCapturing with framePos := 1 },
        [Action.outputFrame 0 (1440 * 486) 0,
         Action.outputFrame 1 (1602 * 2 * 16 / 8) 0]) ∧
    step cfgLimit2 { sCapturing with framePos := 1 } fePlain =
      Except.ok (sAfterTwo,
        [Action.outputFrame 0 (1440 * 486) 1,
         Action.outputFrame 1 (1602 * 2 * 16 / 8) 1,
         Action.stopCmd, Action.closeOutput]) ∧
    step cfgLimit2 sAfterTwo fePlain = Except.ok (sAfterTwo, []) ∧
    (run cfgLimit2 sCapturing [fePlain, fePlain, fePlain]).map
        (fun r => (r.1.status, videoPositions r.2)) =
      Except.ok (CaptureStatus.finished, [0, 1]) := by
  refine ⟨rfl, ?_, rfl, ?_⟩ <;> rfl

/-- C5 counterexample: with a bounded configuration, a successful setup
and a rejected `StartCapture` command, `startCapture` leaves the capture
status at `finished`, not `idle` — the command was issued
(`startCaptureCmd` is in the trace) and its rejection advances the state
machine to `finished`. -/
theorem rejectedStart_leaves_finished :
    (startCapture cfgBounded sIdle oracleStartRejected).1.status =
      CaptureStatus.finished ∧
    Action.startCaptureCmd ∈ (startCapture cfgBounded sIdle oracleStartRejected).2 ∧
    (startCapture cfgBounded sIdle oracleStartRejected).1.status ≠
      CaptureStatus.idle := by
  refine ⟨rfl, ?_, by decide⟩
  decide

/-- `setupCard` never writes `Status`, `m_FramePos` or the glue. -/
lemma setupCard_preserves (s : CaptureState) (ok : Bool) :
    (setupCard s ok).1.status = s.status ∧
    (setupCard s ok).1.framePos = s.framePos ∧
    (setupCard s ok).1.glue = s.glue := by
  unfold setupCard
  split
  · exact ⟨rfl, rfl, rfl⟩
  · split <;> exact ⟨rfl, rfl, rfl⟩

/-- `setupInput` never writes `Status`, `m_FramePos` or the glue. -/
lemma setupInput_preserves (s : CaptureState) (r : InputSetupOutcome) :
    (setupInput s r).1.status = s.status ∧
    (setupInput s r).1.framePos = s.framePos ∧
    (setupInput s r).1.glue = s.glue := by
  unfold setupInput
  split
  · exact ⟨rfl, rfl, rfl⟩
  · cases r <;> exact ⟨rfl, rfl, rfl⟩

/-- `setupControl` never writes `Status`, `m_FramePos` or the glue. -/
lemma setupControl_preserves (s : CaptureState) (ri : InputSetupOutcome)
    (rc : ControlSetupOutcome) :
    (setupControl s ri rc).1.status = s.status ∧
    (setupControl s ri rc).1.framePos = s.framePos ∧
    (setupControl s ri rc).1.glue = s.glue := by
  obtain ⟨h1, h2, h3⟩ := setupInput_preserves s ri
  simp only [setupControl]
  split
  · exact ⟨h1, h2, h3⟩
  · split
    · exact ⟨h1, h2, h3⟩
    · cases rc <;> exact ⟨h1, h2, h3⟩

/-- `cleanupInput` never writes `Status`, `m_FramePos` or the glue. -/
lemma cleanupInput_preserves (s : CaptureState) :
    (cleanupInput s).1.status = s.status ∧
    (cleanupInput s).1.framePos = s.framePos ∧
    (cleanupInput s).1.glue = s.glue := by
  unfold cleanupInput
  split <;> exact ⟨rfl, rfl, rfl⟩

/-- The input-session teardown issues no transport or start command and
forwards no frame. -/
lemma cleanupInput_acts (s : CaptureState) :
    (cleanupInput s).2.1 = [] ∨ (cleanupInput s).2.1 = [Action.closeInput] := by
  unfold cleanupInput
  split
  · exact Or.inl rfl
  · exact Or.inr rfl

/-- C5 as amended: failures in device acquisition, input-stream open and
deck open are reported to the caller as a failed result and leave the
capture status unchanged (still `idle`); a `startCapture` call that
fails before issuing any transport command also leaves the status
unchanged; but a rejected capture-start command sets the status to
`finished`, not `idle`. -/
theorem setup_failures_leave_status (cfg : ConfigIn) (s : CaptureState)
    (ok : Bool) (ri : InputSetupOutcome) (rc : ControlSetupOutcome)
    (o : StartOracle) :
    ((setupCard s ok).2 = false → (setupCard s ok).1.status = s.status) ∧
    ((setupInput s ri).2 = false → (setupInput s ri).1.status = s.status) ∧
    ((setupControl s ri rc).2 = false → (setupControl s ri rc).1.status = s.status) ∧
    (s.inputOpen = false → ri ≠ InputSetupOutcome.success →
      (setupInput s ri).2 = false) ∧
    (s.cardAcquired = false → ok = false → (setupCard s ok).2 = false) ∧
    (Action.playCmd ∉ (startCapture cfg s o).2 →
      Action.startCaptureCmd ∉ (startCapture cfg s o).2 →
      (startCapture cfg s o).1.status = s.status) ∧
    (o.startCaptureOk = false →
      Action.startCaptureCmd ∈ (startCapture cfg s o).2 →
      (startCapture cfg s o).1.status = CaptureStatus.finished) := by
  have hnc : Action.startCaptureCmd ∉ (cleanupInput s).2.1 := by
    rcases cleanupInput_acts s with h | h <;> simp [h]
  refine ⟨fun _ => (setupCard_preserves s ok).1,
          fun _ => (setupInput_preserves s ri).1,
          fun _ => (setupControl_preserves s ri rc).1, ?_, ?_, ?_, ?_⟩
  · intro h1 h2
    unfold setupInput
    rw [if_neg (by simp [h1])]
    cases ri <;> simp_all
  · intro h1 h2
    unfold setupCard
    rw [if_neg (by simp [h1]), if_neg (by simp [h2])]
  · simp only [startCapture]
    split
    · intro _ _
      rw [(setupInput_preserves _ o.input2).1, (setupInput_preserves _ o.input1).1,
        (cleanupInput_preserves s).1]
    · split
      · intro hp _
        exact absurd (by simp) hp
      · split
        · intro _ _
          rw [(setupControl_preserves _ o.ctrlInput o.ctrl).1,
            (setupInput_preserves _ o.input2).1, (setupInput_preserves _ o.input1).1,
            (cleanupInput_preserves s).1]
        · split
          · intro _ hs
            exact absurd (by simp) hs
          · intro _ hs
            exact absurd (by simp) hs
  · intro h1
    simp only [startCapture]
    split
    · intro hmem
      exact absurd hmem hnc
    · split
      · intro hmem
        rw [List.mem_append] at hmem
        rcases hmem with hmem | hmem
        · exact absurd hmem hnc
        · simp at hmem
      · split
        · intro hmem
          exact absurd hmem hnc
        · split
          · intro _
            rfl
          · simp_all

/-- Witness for C5's amended statement at a concrete idle state with a
failing input setup, a failing card acquisition and a rejected
capture-start command. -/
theorem setup_failures_leave_status_witness :
    ((setupInput sIdle InputSetupOutcome.modeNotFound).2 = false →
      (setupInput sIdle InputSetupOutcome.modeNotFound).1.status = sIdle.status) ∧
    (sIdle.inputOpen = false → InputSetupOutcome.modeNotFound ≠ InputSetupOutcome.success →
      (setupInput sIdle InputSetupOutcome.modeNotFound).2 = false) ∧
    (oracleStartRejected.startCaptureOk = false →
      Action.startCaptureCmd ∈ (startCapture cfgBounded sIdle oracleStartRejected).2 →
      (startCapture cfgBounded sIdle oracleStartRejected).1.status =
        CaptureStatus.finished) := by
  have h := setup_failures_leave_status cfgBounded sIdle false
    InputSetupOutcome.modeNotFound ControlSetupOutcome.success oracleStartRejected
  exact ⟨h.2.1, h.2.2.2.1, h.2.2.2.2.2.2⟩

/-- C7: destruction tears down in the order finish-capture (notifying
only when not already finished and a sink is attached), deck-session
close, input-session close, card release, each step firing only for a
resource actually acquired; the whole destructor sequence is idempotent
(a second pass changes nothing and emits nothing), and each close step
is individually idempotent — the input and card closes unconditionally,
the deck close on the already-finished states produced during
destruction. -/
theorem teardown_order_idempotent (cfg : ConfigIn) (s : CaptureState) :
    (destructCaptureHelper cfg s).2 =
      (if s.status ≠ CaptureStatus.finished ∧ s.glue = true
        then [Action.closeOutput] else []) ++
      (if s.controlOpen = true then [Action.closeDeck] else []) ++
      (if s.inputOpen = true then [Action.closeInput] else []) ++
      (if s.cardAcquired = true then [Action.releaseCard] else []) ∧
    destructCaptureHelper cfg (destructCaptureHelper cfg s).1 =
      ((destructCaptureHelper cfg s).1, []) ∧
    (∀ t : CaptureState, cleanupInput (cleanupInput t).1 =
      ((cleanupInput t).1, [], true)) ∧
    (∀ t : CaptureState, cleanupCard (cleanupCard t).1 =
      ((cleanupCard t).1, [], true)) ∧
    (∀ t : CaptureState,
      cleanupControl cfg
          (cleanupControl cfg { t with status := CaptureStatus.finished }).1 =
        ((cleanupControl cfg { t with status := CaptureStatus.finished }).1,
         [], true)) := by
  refine ⟨?_, ?_, ?_, ?_, ?_⟩
  · simp only [destructCaptureHelper, finishCapture, cleanupControl, cleanupInput,
      cleanupCard]
    by_cases h1 : s.status = CaptureStatus.finished <;>
      by_cases h2 : s.glue = true <;>
      by_cases h3 : s.controlOpen = true <;>
      by_cases h4 : s.inputOpen = true <;>
      by_cases h5 : s.cardAcquired = true <;>
      simp_all
  · simp only [destructCaptureHelper, finishCapture, cleanupControl, cleanupInput,
      cleanupCard]
    by_cases h1 : s.status = CaptureStatus.finished <;>
      by_cases h3 : s.controlOpen = true <;>
      by_cases h4 : s.inputOpen = true <;>
      by_cases h5 : s.cardAcquired = true <;>
      simp_all
  · intro t
    simp only [cleanupInput]
    split <;> simp_all
  · intro t
    simp only [cleanupCard]
    split <;> simp_all
  · intro t
    simp only [cleanupControl]
    by_cases h3 : t.controlOpen = true <;> simp_all

/-- C8: a timecode query failing with the no-communication condition is
non-fatal: the current timecode is set to unknown (`-1`), the status is
untouched and the pending flag (`WantTimeCode`) is raised; the next deck
status event whose flags and change mask report the deck connected
re-runs `readTimeCode` with the pending flag cleared afterwards; status
events not reporting connection, and connection events with no pending
request, change nothing and do not query. -/
theorem pending_timecode_retry (cfg : ConfigIn) (s : CaptureState)
    (flags mask : Nat) (r : TimecodeQueryResult) :
    readTimeCode cfg s (TimecodeQueryResult.err DeckControlError.noCommunicationError) =
      ({ s with wantTimeCode := true, tcCurrent := -1 }, [Action.queryTimecode]) ∧
    (s.wantTimeCode = true → mask &&& deckConnectedBit ≠ 0 →
      flags &&& deckConnectedBit ≠ 0 →
      DeckControlStatusChanged cfg s flags mask r =
        ({ (readTimeCode cfg s r).1 with wantTimeCode := false },
         (readTimeCode cfg s r).2) ∧
      Action.queryTimecode ∈ (DeckControlStatusChanged cfg s flags mask r).2 ∧
      (DeckControlStatusChanged cfg s flags mask r).1.wantTimeCode = false) ∧
    (s.wantTimeCode = false → DeckControlStatusChanged cfg s flags mask r = (s, [])) ∧
    (mask &&& deckConnectedBit = 0 ∨ flags &&& deckConnectedBit = 0 →
      DeckControlStatusChanged cfg s flags mask r = (s, [])) := by
  refine ⟨rfl, ?_, ?_, ?_⟩
  · intro hw hm hf
    have hq : Action.queryTimecode ∈ (readTimeCode cfg s r).2 := by
      unfold readTimeCode
      cases r <;> simp
    refine ⟨?_, ?_, ?_⟩ <;>
      simp [DeckControlStatusChanged, hw, hm, hf, hq]
  · intro hw
    simp [DeckControlStatusChanged, hw]
  · intro h
    rcases h with h | h <;> simp [DeckControlStatusChanged, h]

/-- Witness for C8 at a concrete pending state and a connected status
event whose retry succeeds. -/
theorem pending_timecode_retry_witness :
    (let s : CaptureState := { sIdle with wantTimeCode := true }
     readTimeCode cfgBounded s
        (TimecodeQueryResult.err DeckControlError.noCommunicationError) =
       ({ s with wantTimeCode := true, tcCurrent := -1 }, [Action.queryTimecode]) ∧
     DeckControlStatusChanged cfgBounded s 1 1 (TimecodeQueryResult.ok 16777216) =
       ({ (readTimeCode cfgBounded s (TimecodeQueryResult.ok 16777216)).1 with
            wantTimeCode := false },
        (readTimeCode cfgBounded s (TimecodeQueryResult.ok 16777216)).2) ∧
     (DeckControlStatusChanged cfgBounded s 1 1
        (TimecodeQueryResult.ok 16777216)).1.wantTimeCode = false) := by
  have h := pending_timecode_retry cfgBounded { sIdle with wantTimeCode := true }
    1 1 (TimecodeQueryResult.ok 16777216)
  have h2 := h.2.1 rfl (by decide) (by decide)
  exact ⟨h.1, h2.1, h2.2.2⟩

/-- Under a bounded configuration with valid BCD bounds, a frame whose
timecode is `T` passes the gate exactly when `T` lies in
`[TC_in, TC_out)` and differs from the last-observed current timecode
(no duplicate, with `-1` meaning none observed), provided the
frame-count limit does not interfere. -/
lemma shouldDecode_bounded (cfg : ConfigIn) (s : CaptureState) (T : Nat)
    (hin : 0 ≤ cfg.TC_in) (hio : cfg.TC_in < cfg.TC_out)
    (hout : cfg.TC_out < 4294967296) (hT : T < 4294967296)
    (hcur : -1 ≤ s.tcCurrent) (hcur2 : s.tcCurrent < 4294967296)
    (hfc : cfg.FrameCount = -1 ∨ (s.framePos : Int) < cfg.FrameCount) :
    (shouldDecode cfg s (some T) = true ↔
      (cfg.TC_in ≤ (T : Int) ∧ (T : Int) < cfg.TC_out ∧
        (s.tcCurrent = -1 ∨ (T : Int) ≠ s.tcCurrent))) := by
  have hA : ¬ (cfg.FrameCount ≠ -1 ∧ (s.framePos : Int) ≥ cfg.FrameCount) := by
    omega
  simp only [shouldDecode, if_neg hA]
  split
  · rename_i h
    simp only [Bool.false_eq_true, false_iff]
    unfold toU32 at h
    omega
  · rename_i h
    simp only [true_iff]
    unfold toU32 at h
    omega

/-- C1: for a bounded capture (valid in/out BCD bounds, in before out),
a frame with timecode `T` arriving with audio while status is
`capturing`, with a FrameSink attached and no frame-count-limit
interference, is forwarded to the FrameSink iff `TC_in ≤ T < TC_out`
and `T` differs from the last-observed current timecode (duplicate
protection); when it is not forwarded nothing is emitted and the frame
position does not advance. -/
theorem bounded_capture_gating (cfg : ConfigIn) (s : CaptureState)
    (vf : VideoFrame) (ap : AudioPacket) (T : Nat)
    (hst : s.status = CaptureStatus.capturing) (hg : s.glue = true)
    (htc : vf.timecode = some T)
    (hin : 0 ≤ cfg.TC_in) (hio : cfg.TC_in < cfg.TC_out)
    (hout : cfg.TC_out < 4294967296) (hT : T < 4294967296)
    (hcur : -1 ≤ s.tcCurrent) (hcur2 : s.tcCurrent < 4294967296)
    (hfc : cfg.FrameCount = -1 ∨ (s.framePos : Int) < cfg.FrameCount) :
    ∃ s1 acts, VideoInputFrameArrived cfg s vf (some ap) = Except.ok (s1, acts) ∧
      (forwardsFrame acts = true ↔
        (cfg.TC_in ≤ (T : Int) ∧ (T : Int) < cfg.TC_out ∧
          (s.tcCurrent = -1 ∨ (T : Int) ≠ s.tcCurrent))) ∧
      (forwardsFrame acts = false → acts = [] ∧ s1.framePos = s.framePos) := by
  have hsd := shouldDecode_bounded cfg s T hin hio hout hT hcur hcur2 hfc
  have hne : ¬ s.status ≠ CaptureStatus.capturing := by simp [hst]
  simp only [VideoInputFrameArrived, if_neg hne, htc]
  by_cases hP : cfg.TC_in ≤ (T : Int) ∧ (T : Int) < cfg.TC_out ∧
      (s.tcCurrent = -1 ∨ (T : Int) ≠ s.tcCurrent)
  · rw [hsd.mpr hP]
    simp only [decodeFrame, if_pos rfl, hg, if_pos rfl]
    by_cases hC : cfg.FrameCount ≠ -1 ∧
        ((s.framePos + 1 : Nat) : Int) ≥ cfg.FrameCount
    · rw [if_pos hC]
      refine ⟨_, _, rfl, iff_of_true (by simp [forwardsFrame]) hP, ?_⟩
      intro hf
      simp [forwardsFrame] at hf
    · rw [if_neg hC]
      refine ⟨_, _, rfl, iff_of_true (by simp [forwardsFrame]) hP, ?_⟩
      intro hf
      simp [forwardsFrame] at hf
  · have hfalse : shouldDecode cfg s (some T) = false := by
      rcases h : shouldDecode cfg s (some T) with _ | _
      · rfl
      · exact absurd (hsd.mp h) hP
    rw [hfalse]
    simp only [decodeFrame, if_neg (by decide : ¬ (false = true))]
    exact ⟨_, _, rfl, iff_of_false (by simp [forwardsFrame]) hP,
      fun _ => ⟨rfl, rfl⟩⟩

/-- Witness for C1 at the spec's scenario: in-point 01:00:00:00,
out-point 01:00:10:00, a frame at 01:00:05:00 with no previously
observed timecode. -/
theorem bounded_capture_gating_witness :
    ∃ s1 acts,
      VideoInputFrameArrived cfgBounded sCapturing
          { timecode := some 16778496, rowBytes := 1440, height := 486 }
          (some apPlain) =
        Except.ok (s1, acts) ∧
      (forwardsFrame acts = true ↔
        (cfgBounded.TC_in ≤ (16778496 : Int) ∧
          (16778496 : Int) < cfgBounded.TC_out ∧
          (sCapturing.tcCurrent = -1 ∨ (16778496 : Int) ≠ sCapturing.tcCurrent))) ∧
      (forwardsFrame acts = false → acts = [] ∧ s1.framePos = sCapturing.framePos) :=
  bounded_capture_gating cfgBounded sCapturing
    { timecode := some 16778496, rowBytes := 1440, height := 486 } apPlain 16778496
    rfl rfl rfl (by decide) (by decide) (by decide) (by decide) (by decide)
    (by decide) (Or.inl rfl)

/-- `finishCapture` leaves the frame position and glue untouched and
forwards no frame. -/
lemma finishCapture_counters (s : CaptureState) :
    (finishCapture s).1.framePos = s.framePos ∧
    (finishCapture s).1.glue = s.glue ∧
    videoPositions (finishCapture s).2.1 = [] := by
  unfold finishCapture
  split
  · exact ⟨rfl, rfl, rfl⟩
  · cases hg : s.glue <;> simp [videoPositions]

/-- `stop` leaves the frame position and glue untouched and forwards no
frame. -/
lemma stop_counters (cfg : ConfigIn) (s : CaptureState) :
    (stop cfg s).1.framePos = s.framePos ∧
    (stop cfg s).1.glue = s.glue ∧
    videoPositions (stop cfg s).2 = [] := by
  obtain ⟨h1, h2, h3⟩ := finishCapture_counters s
  unfold stop
  split
  · exact ⟨rfl, rfl, by simp [videoPositions]⟩
  · exact ⟨h1, h2, by simpa [videoPositions] using h3⟩

/-- `readTimeCode` leaves the frame position and glue untouched and
forwards no frame. -/
lemma readTimeCode_counters (cfg : ConfigIn) (s : CaptureState)
    (r : TimecodeQueryResult) :
    (readTimeCode cfg s r).1.framePos = s.framePos ∧
    (readTimeCode cfg s r).1.glue = s.glue ∧
    videoPositions (readTimeCode cfg s r).2 = [] := by
  cases r with
  | err e =>
      by_cases he : e = DeckControlError.noCommunicationError <;>
        simp [readTimeCode, he, videoPositions]
  | ok bcd =>
      cases hc : cfg.hasTimeCodeCallback <;>
        simp [readTimeCode, hc, videoPositions]

/-- `DeckControlStatusChanged` leaves the frame position and glue
untouched and forwards no frame. -/
lemma statusChanged_counters (cfg : ConfigIn) (s : CaptureState)
    (flags mask : Nat) (r : TimecodeQueryResult) :
    (DeckControlStatusChanged cfg s flags mask r).1.framePos = s.framePos ∧
    (DeckControlStatusChanged cfg s flags mask r).1.glue = s.glue ∧
    videoPositions (DeckControlStatusChanged cfg s flags mask r).2 = [] := by
  obtain ⟨h1, h2, h3⟩ := readTimeCode_counters cfg s r
  unfold DeckControlStatusChanged
  split
  · split
    · exact ⟨h1, h2, h3⟩
    · exact ⟨rfl, rfl, rfl⟩
  · exact ⟨rfl, rfl, rfl⟩

/-- `DeckControlEventReceived` leaves the frame position and glue
untouched and forwards no frame. -/
lemma eventReceived_counters (s : CaptureState) (ev : DeckControlEvent)
    (err : DeckControlError) :
    (DeckControlEventReceived s ev err).1.framePos = s.framePos ∧
    (DeckControlEventReceived s ev err).1.glue = s.glue ∧
    videoPositions (DeckControlEventReceived s ev err).2 = [] := by
  obtain ⟨h1, h2, h3⟩ := finishCapture_counters s
  cases ev <;> first
    | exact ⟨rfl, rfl, rfl⟩
    | exact ⟨h1, h2, h3⟩

/-- The teardown helpers forward no frame. -/
lemma cleanupInput_counters (s : CaptureState) :
    (cleanupInput s).1.framePos = s.framePos ∧
    (cleanupInput s).1.glue = s.glue ∧
    videoPositions (cleanupInput s).2.1 = [] := by
  refine ⟨(cleanupInput_preserves s).2.1, (cleanupInput_preserves s).2.2, ?_⟩
  rcases cleanupInput_acts s with h | h <;> simp [h, videoPositions]

/-- `startCapture` leaves the frame position and glue untouched — in
particular it does *not* reset the frame position — and forwards no
frame. -/
lemma startCapture_counters (cfg : ConfigIn) (s : CaptureState)
    (o : StartOracle) :
    (startCapture cfg s o).1.framePos = s.framePos ∧
    (startCapture cfg s o).1.glue = s.glue ∧
    videoPositions (startCapture cfg s o).2 = [] := by
  obtain ⟨hc1, hc2, hc3⟩ := cleanupInput_counters s
  have hi1 := setupInput_preserves (cleanupInput s).1 o.input1
  have hi2 := setupInput_preserves (setupInput (cleanupInput s).1 o.input1).1 o.input2
  have hct := setupControl_preserves
    (setupInput (setupInput (cleanupInput s).1 o.input1).1 o.input2).1 o.ctrlInput o.ctrl
  simp only [startCapture]
  split
  · exact ⟨by rw [hi2.2.1, hi1.2.1, hc1], by rw [hi2.2.2, hi1.2.2, hc2], hc3⟩
  · split
    · refine ⟨by rw [hi2.2.1, hi1.2.1, hc1], by rw [hi2.2.2, hi1.2.2, hc2], ?_⟩
      simp only [videoPositions, List.filterMap_append] at hc3 ⊢
      simp [hc3]
    · split
      · exact ⟨by rw [hct.2.1, hi2.2.1, hi1.2.1, hc1],
               by rw [hct.2.2, hi2.2.2, hi1.2.2, hc2], hc3⟩
      · split
        · refine ⟨by rw [hct.2.1, hi2.2.1, hi1.2.1, hc1],
                  by rw [hct.2.2, hi2.2.2, hi1.2.2, hc2], ?_⟩
          simp only [videoPositions, List.filterMap_append] at hc3 ⊢
          simp [hc3]
        · refine ⟨by rw [hct.2.1, hi2.2.1, hi1.2.1, hc1],
                  by rw [hct.2.2, hi2.2.2, hi1.2.2, hc2], ?_⟩
          simp only [videoPositions, List.filterMap_append] at hc3 ⊢
          simp [hc3]

/-- `getTimeCode` leaves the frame position and glue untouched and
forwards no frame. -/
lemma getTimeCode_counters (cfg : ConfigIn) (s : CaptureState)
    (ri : InputSetupOutcome) (rc : ControlSetupOutcome)
    (r : TimecodeQueryResult) :
    (getTimeCode cfg s ri rc r).1.framePos = s.framePos ∧
    (getTimeCode cfg s ri rc r).1.glue = s.glue ∧
    videoPositions (getTimeCode cfg s ri rc r).2 = [] := by
  have hsc := setupControl_preserves s ri rc
  have hrd := readTimeCode_counters cfg (setupControl s ri rc).1 r
  simp only [getTimeCode]
  split
  · exact ⟨hsc.2.1, hsc.2.2, rfl⟩
  · exact ⟨by rw [hrd.1, hsc.2.1], by rw [hrd.2.1, hsc.2.2], hrd.2.2⟩

/-- The decode-and-forward tail either leaves the state's counters
untouched with an empty delivery, or forwards exactly one frame at the
current position and advances the position by one. -/
lemma decodeFrame_counters (cfg : ConfigIn) (s : CaptureState) (sd : Bool)
    (vf : VideoFrame) (af : Option AudioPacket) (s1 : CaptureState)
    (acts : List Action)
    (h : decodeFrame cfg s sd vf af = Except.ok (s1, acts)) :
    s1.glue = s.glue ∧
    ((s1.framePos = s.framePos ∧ videoPositions acts = []) ∨
     (s1.framePos = s.framePos + 1 ∧
       videoPositions acts = if s.glue = true then [s.framePos] else [])) := by
  cases af with
  | none =>
      simp only [decodeFrame] at h
      by_cases hsd : sd = true
      · rw [if_pos hsd] at h
        simp at h
      · rw [if_neg hsd] at h
        simp only [Except.ok.injEq, Prod.mk.injEq] at h
        obtain ⟨h1, h2⟩ := h
        subst h1
        subst h2
        exact ⟨rfl, Or.inl ⟨rfl, rfl⟩⟩
  | some ap =>
      simp only [decodeFrame] at h
      by_cases hsd : sd = true
      · rw [if_pos hsd] at h
        have hst := stop_counters cfg { s with framePos := s.framePos + 1 }
        by_cases hC : cfg.FrameCount ≠ -1 ∧
            ((s.framePos + 1 : Nat) : Int) ≥ cfg.FrameCount
        · rw [if_pos hC] at h
          simp only [Except.ok.injEq, Prod.mk.injEq] at h
          obtain ⟨h1, h2⟩ := h
          subst h1
          subst h2
          refine ⟨hst.2.1, Or.inr ⟨hst.1, ?_⟩⟩
          have h3 := hst.2.2
          simp only [videoPositions, List.filterMap_append] at h3 ⊢
          rw [h3, List.append_nil]
          cases hg : s.glue <;> simp
        · rw [if_neg hC] at h
          simp only [Except.ok.injEq, Prod.mk.injEq] at h
          obtain ⟨h1, h2⟩ := h
          subst h1
          subst h2
          refine ⟨rfl, Or.inr ⟨rfl, ?_⟩⟩
          cases hg : s.glue <;> simp [hg, videoPositions]
      · rw [if_neg hsd] at h
        simp only [Except.ok.injEq, Prod.mk.injEq] at h
        obtain ⟨h1, h2⟩ := h
        subst h1
        subst h2
        exact ⟨rfl, Or.inl ⟨rfl, rfl⟩⟩

/-- A frame arrival either leaves the position untouched with no
delivery, or forwards exactly one frame at the current position. -/
lemma frameArrived_counters (cfg : ConfigIn) (s : CaptureState)
    (vf : VideoFrame) (af : Option AudioPacket) (s1 : CaptureState)
    (acts : List Action)
    (h : VideoInputFrameArrived cfg s vf af = Except.ok (s1, acts)) :
    s1.glue = s.glue ∧
    ((s1.framePos = s.framePos ∧ videoPositions acts = []) ∨
     (s1.framePos = s.framePos + 1 ∧
       videoPositions acts = if s.glue = true then [s.framePos] else [])) := by
  unfold VideoInputFrameArrived at h
  by_cases hst : s.status ≠ CaptureStatus.capturing
  · rw [if_pos hst] at h
    simp only [Except.ok.injEq, Prod.mk.injEq] at h
    obtain ⟨h1, h2⟩ := h
    subst h1
    subst h2
    exact ⟨rfl, Or.inl ⟨rfl, rfl⟩⟩
  · rw [if_neg hst] at h
    cases htc : vf.timecode with
    | none =>
        rw [htc] at h
        exact decodeFrame_counters cfg s _ vf af s1 acts h
    | some T =>
        rw [htc] at h
        exact decodeFrame_counters cfg { s with tcCurrent := (T : Int) } _ vf af
          s1 acts h

/-- One step of the state machine either leaves the frame position
untouched with no delivery, or forwards exactly one frame at the current
position and advances the position by one; the glue is never changed. -/
lemma step_counters (cfg : ConfigIn) (s : CaptureState) (e : Event)
    (s1 : CaptureState) (acts : List Action)
    (h : step cfg s e = Except.ok (s1, acts)) :
    s1.glue = s.glue ∧
    ((s1.framePos = s.framePos ∧ videoPositions acts = []) ∨
     (s1.framePos = s.framePos + 1 ∧
       videoPositions acts = if s.glue = true then [s.framePos] else [])) := by
  cases e with
  | frameArrival vf af => exact frameArrived_counters cfg s vf af s1 acts h
  | deckEvent ev err =>
      obtain ⟨h1, h2, h3⟩ := eventReceived_counters s ev err
      simp only [step, Except.ok.injEq] at h
      have ha : s1 = (DeckControlEventReceived s ev err).1 := by rw [h]
      have hb : acts = (DeckControlEventReceived s ev err).2 := by rw [h]
      subst ha
      subst hb
      exact ⟨h2, Or.inl ⟨h1, h3⟩⟩
  | statusChange flags mask r =>
      obtain ⟨h1, h2, h3⟩ := statusChanged_counters cfg s flags mask r
      simp only [step, Except.ok.injEq] at h
      have ha : s1 = (DeckControlStatusChanged cfg s flags mask r).1 := by rw [h]
      have hb : acts = (DeckControlStatusChanged cfg s flags mask r).2 := by rw [h]
      subst ha
      subst hb
      exact ⟨h2, Or.inl ⟨h1, h3⟩⟩
  | stopRequest =>
      obtain ⟨h1, h2, h3⟩ := stop_counters cfg s
      simp only [step, Except.ok.injEq] at h
      have ha : s1 = (stop cfg s).1 := by rw [h]
      have hb : acts = (stop cfg s).2 := by rw [h]
      subst ha
      subst hb
      exact ⟨h2, Or.inl ⟨h1, h3⟩⟩
  | startRequest o =>
      obtain ⟨h1, h2, h3⟩ := startCapture_counters cfg s o
      simp only [step, Except.ok.injEq] at h
      have ha : s1 = (startCapture cfg s o).1 := by rw [h]
      have hb : acts = (startCapture cfg s o).2 := by rw [h]
      subst ha
      subst hb
      exact ⟨h2, Or.inl ⟨h1, h3⟩⟩
  | timeCodeRequest ri rc r =>
      obtain ⟨h1, h2, h3⟩ := getTimeCode_counters cfg s ri rc r
      simp only [step, Except.ok.injEq] at h
      have ha : s1 = (getTimeCode cfg s ri rc r).1 := by rw [h]
      have hb : acts = (getTimeCode cfg s ri rc r).2 := by rw [h]
      subst ha
      subst hb
      exact ⟨h2, Or.inl ⟨h1, h3⟩⟩
  | finishRequest =>
      obtain ⟨h1, h2, h3⟩ := finishCapture_counters s
      simp only [step, Except.ok.injEq, Prod.mk.injEq] at h
      obtain ⟨ha, hb⟩ := h
      subst ha
      subst hb
      exact ⟨h2, Or.inl ⟨h1, h3⟩⟩

/-- Over any event sequence, the delivered video positions form exactly
the contiguous range from the starting frame position to the final one
(and nothing is delivered with no sink attached). -/
lemma run_videoPositions (cfg : ConfigIn) :
    ∀ (events : List Event) (s s1 : CaptureState) (acts : List Action),
      run cfg s events = Except.ok (s1, acts) →
      s.framePos ≤ s1.framePos ∧ s1.glue = s.glue ∧
      videoPositions acts =
        (if s.glue = true then
          List.range' s.framePos (s1.framePos - s.framePos) else []) := by
  intro events
  induction events with
  | nil =>
      intro s s1 acts h
      simp only [run, Except.ok.injEq, Prod.mk.injEq] at h
      obtain ⟨h1, h2⟩ := h
      subst h1
      subst h2
      refine ⟨Nat.le_refl _, rfl, ?_⟩
      cases hg : s.glue <;> simp [videoPositions]
  | cons e es ih =>
      intro s s1 acts h
      unfold run at h
      cases hstep : step cfg s e with
      | error u => rw [hstep] at h; exact absurd h (by simp)
      | ok p =>
          obtain ⟨smid, a1⟩ := p
          rw [hstep] at h
          simp only [] at h
          cases hrun : run cfg smid es with
          | error u => rw [hrun] at h; exact absurd h (by simp)
          | ok q =>
              obtain ⟨s2, a2⟩ := q
              rw [hrun] at h
              simp only [Except.ok.injEq, Prod.mk.injEq] at h
              obtain ⟨h1, h2⟩ := h
              subst h1
              subst h2
              obtain ⟨hle, hglue, hvp⟩ := ih smid s2 a2 hrun
              obtain ⟨hg1, hcase⟩ := step_counters cfg s e smid a1 hstep
              rw [hg1] at hvp hglue
              have happ : videoPositions (a1 ++ a2) =
                  videoPositions a1 ++ videoPositions a2 := by
                simp [videoPositions]
              rcases hcase with ⟨hp, hv⟩ | ⟨hp, hv⟩
              · rw [hp] at hle hvp
                exact ⟨hle, hglue, by rw [happ, hv, hvp, List.nil_append]⟩
              · rw [hp] at hle hvp
                refine ⟨by omega, hglue, ?_⟩
                rw [happ, hv, hvp]
                cases hg : s.glue with
                | false => simp
                | true =>
                    simp only [if_true]
                    have hk : s2.framePos - s.framePos =
                        (s2.framePos - (s.framePos + 1)) + 1 := by omega
                    rw [hk, List.range'_succ]
                    rfl

/-- C4: the frame position delivered to the FrameSink starts at 0 and
increases by exactly 1 per forwarded frame — over any event sequence
starting from the constructor's `m_FramePos = 0`, the delivered
positions are exactly `range` of the final position — and no handler
ever resets or decreases the position (in particular `startCapture`
leaves it unchanged), so only a fresh capture attempt (a newly
constructed helper, which starts from `Idle`) restarts at 0. -/
theorem framePos_starts_at_zero (cfg : ConfigIn) (events : List Event)
    (s s1 : CaptureState) (acts : List Action)
    (hg : s.glue = true) (h0 : s.framePos = 0)
    (hrun : run cfg s events = Except.ok (s1, acts)) :
    videoPositions acts = List.range s1.framePos ∧
    (∀ (t t1 : CaptureState) (e : Event) (acts1 : List Action),
      step cfg t e = Except.ok (t1, acts1) → t.framePos ≤ t1.framePos) ∧
    (∀ (t : CaptureState) (o : StartOracle),
      (startCapture cfg t o).1.framePos = t.framePos) := by
  obtain ⟨hle, hg1, hvp⟩ := run_videoPositions cfg events s s1 acts hrun
  refine ⟨?_, ?_, fun t o => (startCapture_counters cfg t o).1⟩
  · rw [hvp, if_pos hg, h0, Nat.sub_zero, List.range_eq_range']
  · intro t t1 e acts1 hstep
    rcases (step_counters cfg t e t1 acts1 hstep).2 with ⟨h, _⟩ | ⟨h, _⟩ <;> omega

/-- Witness for C4: a single forwarded frame from a fresh capturing
state delivers exactly position 0. -/
theorem framePos_starts_at_zero_witness :
    videoPositions
        [Action.outputFrame 0 (1440 * 486) 0,
         Action.outputFrame 1 (1602 * 2 * 16 / 8) 0] =
      List.range ({ sCapturing with framePos := 1 } : CaptureState).framePos :=
  (framePos_starts_at_zero cfgUnbounded [fePlain] sCapturing
    { sCapturing with framePos := 1 }
    [Action.outputFrame 0 (1440 * 486) 0,
     Action.outputFrame 1 (1602 * 2 * 16 / 8) 0]
    rfl rfl rfl).1

end BMDL
